import Mathlib

/-!
Verification of the autonomous-SDLC agent platform core against its
natural-language specification.

The development shallowly embeds the two subsystems the claims are about:

* the build orchestrator hook (`useProjectOrchestrator`): the artifact tree
  (`ProjectFile`), code generation (`handleGenerateCode`), the self-healing
  test/debug loop (`handleRunTests` / `handleDebugCode`) and the sequential
  build driver (`handleBuildProject`);
* the webhook event bus (`WebhookService`): `subscribe`, `emit`, the queue
  drain (`processQueue`), delivery (`deliverEvent`) and signature
  generation/validation.

External collaborators (the AI generation/test/debug services, `fetch`, the
platform HMAC primitive, UUID generation and clock) are passed in as explicit
parameters; stateful code is embedded as explicit state passing, with an
effect trace recording the externally visible actions (terminal entries, chat
messages, collaborator invocations, webhook emissions).
-/

namespace SDLC

/-- File kind, `'file' | 'directory'` in `types.ts` (field `type` there; named
`kind` here because `type` is a Lean keyword). -/
inductive FileKind where
  | file
  | directory
deriving DecidableEq, Repr

/-- Lifecycle status of a `ProjectFile`, from `types.ts`:
`'planned' | 'generating' | 'generated' | 'modified' | 'error'`. -/
inductive FileStatus where
  | planned
  | generating
  | generated
  | modified
  | error
deriving DecidableEq, Repr

/-- Test status of a `ProjectFile`, from `types.ts`:
`'untested' | 'passing' | 'failing'`. -/
inductive TestStatus where
  | untested
  | passing
  | failing
deriving DecidableEq, Repr

mutual
/-- `ProjectFile` from `types.ts`: path, kind, optional code payload,
status, test status, optional last test error, and children (used for
directories).  The children list is represented by the mutually inductive
`Forest` so that all tree operations are structurally recursive and hence
kernel-computable. -/
inductive ProjectFile where
  | mk (path : String) (kind : FileKind) (code : Option String)
      (status : FileStatus) (testStatus : TestStatus)
      (testError : Option String) (children : Forest)

/-- A list of `ProjectFile` nodes (the `ProjectFile[]` arrays of the source). -/
inductive Forest where
  | nil
  | cons (hd : ProjectFile) (tl : Forest)
end

def ProjectFile.path : ProjectFile → String
  | .mk p _ _ _ _ _ _ => p

def ProjectFile.kind : ProjectFile → FileKind
  | .mk _ k _ _ _ _ _ => k

def ProjectFile.code : ProjectFile → Option String
  | .mk _ _ c _ _ _ _ => c

def ProjectFile.status : ProjectFile → FileStatus
  | .mk _ _ _ s _ _ _ => s

def ProjectFile.testStatus : ProjectFile → TestStatus
  | .mk _ _ _ _ ts _ _ => ts

def ProjectFile.testError : ProjectFile → Option String
  | .mk _ _ _ _ _ te _ => te

def ProjectFile.children : ProjectFile → Forest
  | .mk _ _ _ _ _ _ ch => ch

mutual
/-- Modelled from the spec: `flattenFileTree` of `utils/fileTree.ts` (the
file itself is not among the sources; §4.1 of the spec: "`flatten()` produces
a finite, restartable, pre-order sequence of every node (directories and
files)").  Pre-order over one node: the node itself, then its children. -/
def flattenTree : ProjectFile → List ProjectFile
  | .mk p k c s ts te ch => .mk p k c s ts te ch :: flattenForest ch

/-- Pre-order flattening of a forest: each tree in order. -/
def flattenForest : Forest → List ProjectFile
  | .nil => []
  | .cons t ts => flattenTree t ++ flattenForest ts
end

/-- Modelled from the spec: `findFileByPath` of `utils/fileTree.ts` (§4.1:
"`findByPath(path)` returns the node or a not-found signal").  First node of
the pre-order sequence whose path matches. -/
def findFileByPath (l : Forest) (p : String) : Option ProjectFile :=
  (flattenForest l).find? (fun n => n.path == p)

mutual
/-- Modelled from the spec: `updateFileByPath` of `utils/fileTree.ts` (§4.1:
`setCode`/`setStatus`/`setTestStatus` "point-mutate" the node at a path).
Applies `g` to every node whose path matches, recursing into the children of
non-matching nodes. -/
def updateTree (p : String) (g : ProjectFile → ProjectFile) :
    ProjectFile → ProjectFile
  | .mk q k c s ts te ch =>
    if q == p then g (.mk q k c s ts te ch)
    else .mk q k c s ts te (updateForest p g ch)

/-- `updateTree` mapped over a forest. -/
def updateForest (p : String) (g : ProjectFile → ProjectFile) :
    Forest → Forest
  | .nil => .nil
  | .cons t ts => .cons (updateTree p g t) (updateForest p g ts)
end

/-- Splits a character list at every slash (`splitOn "/"` on the character
level, kept structurally recursive so that it computes in the kernel). -/
def splitSlash : List Char → List (List Char)
  | [] => [[]]
  | c :: rest =>
    match splitSlash rest with
    | [] => [[c]]
    | seg :: segs => if c == '/' then [] :: seg :: segs else (c :: seg) :: segs

/-- `p.split('/')`: the slash-separated segments of a path. -/
def splitOnSlash (p : String) : List String :=
  (splitSlash p.data).map String.mk

/-- Checks whether the first list is a prefix of the second. -/
def isPrefixList : List Char → List Char → Bool
  | [], _ => true
  | _ :: _, [] => false
  | a :: as, b :: bs => a == b && isPrefixList as bs

/-- `haystack.includes(needle)` of JavaScript strings. -/
def strIncludes (s sub : String) : Bool :=
  let rec go (needle : List Char) : List Char → Bool
    | [] => needle.isEmpty
    | c :: rest => isPrefixList needle (c :: rest) || go needle rest
  go sub.data s.data

/-- `s.endsWith(suffix)` of JavaScript strings. -/
def strEndsWith (s suffix : String) : Bool :=
  isPrefixList suffix.data.reverse s.data.reverse

/-- Parent path of a slash-separated path: `none` for a root-level path. -/
def parentPath (p : String) : Option String :=
  let segs := splitOnSlash p
  if segs.length ≤ 1 then none
  else some (String.intercalate "/" segs.dropLast)

/-- A freshly planned file node, as created by the `ADD_FILE` reducer action
(spec §4.5: "The new node starts `planned`"). -/
def newPlannedFile (p : String) : ProjectFile :=
  .mk p .file none .planned .untested none .nil

def Forest.append : Forest → ProjectFile → Forest
  | .nil, n => .cons n .nil
  | .cons t ts, n => .cons t (ts.append n)

mutual
/-- Appends a new child to every directory node whose path matches. -/
def addChildTree (parent : String) (n : ProjectFile) :
    ProjectFile → ProjectFile
  | .mk q k c s ts te ch =>
    if q == parent then .mk q k c s ts te ((addChildForest parent n ch).append n)
    else .mk q k c s ts te (addChildForest parent n ch)

/-- `addChildTree` mapped over a forest. -/
def addChildForest (parent : String) (n : ProjectFile) : Forest → Forest
  | .nil => .nil
  | .cons t ts => .cons (addChildTree parent n t) (addChildForest parent n ts)
end

/-- Modelled from the spec: `addFileByPath` of `utils/fileTree.ts`, the
implementation of the `ADD_FILE` reducer action (neither file is among the
sources; §4.5: `insertRequestedFile` inserts the new `planned` node into the
tree under its parent directory).  A root-level path is appended to the root
forest; otherwise the new file is appended to the children of its parent
directory. -/
def addFileByPath (l : Forest) (p : String) : Forest :=
  match parentPath p with
  | none => l.append (newPlannedFile p)
  | some par => addChildForest par (newPlannedFile p) l

/-- Modelled from the spec: the `SET_FILE_STATUS` reducer action (`reducer.ts`
is not among the sources; §4.1: "`setStatus`/`setTestStatus(path, …)`
point-mutate"). -/
def setFileStatus (l : Forest) (p : String) (s : FileStatus) : Forest :=
  updateForest p (fun n => .mk n.path n.kind n.code s n.testStatus n.testError n.children) l

/-- Modelled from the spec: the `UPDATE_FILE_CODE` reducer action
(`reducer.ts` is not among the sources; §4.1: "`setCode(path, code)` sets the
code payload and advances status: `planned`/`generating` → `generated`; an
already-`generated` node receiving new code → `modified`"). -/
def updateFileCode (l : Forest) (p : String) (code : String) : Forest :=
  updateForest p (fun n =>
    let s := match n.status with
      | .planned => FileStatus.generated
      | .generating => FileStatus.generated
      | .generated => FileStatus.modified
      | s => s
    .mk n.path n.kind (some code) s n.testStatus n.testError n.children) l

/-- Modelled from the spec: the `UPDATE_FILE_TEST_STATUS` reducer action with
a `testError` payload (dispatched for a failing test; `reducer.ts` is not
among the sources; §4.1 `setTestStatus`). -/
def setTestStatusAndError (l : Forest) (p : String) (ts : TestStatus)
    (te : Option String) : Forest :=
  updateForest p (fun n => .mk n.path n.kind n.code n.status ts te n.children) l

/-- Modelled from the spec: the `UPDATE_FILE_TEST_STATUS` reducer action
without a `testError` payload (dispatched for a passing test). -/
def setTestStatusOnly (l : Forest) (p : String) (ts : TestStatus) : Forest :=
  updateForest p (fun n => .mk n.path n.kind n.code n.status ts n.testError n.children) l

/-!
## The orchestrator (`useProjectOrchestrator`)

The hook is embedded as explicit state passing over the slice of
`ProjectState` the build pipeline touches, together with an effect trace of
its externally visible actions.  The AI collaborators
(`generateCodeForFile`, `generateTestError`, `debugCode` of
`geminiService.ts`, external per spec §6) are parameters.
-/

/-- Externally visible actions of the orchestrator: collaborator invocations,
`addTerminalEntry`, `addMessage`, `updateAgentStatus`, `CLEAR_TERMINAL`, the
knowledge-base success callback, and webhook-bus emission
(`webhookService.emit` — present in the alphabet because the event bus is
part of the repository, whether or not the orchestrator invokes it). -/
inductive Effect where
  | generate (path : String)
  | runTest (path : String)
  | debug (path : String)
  | learn (path : String)
  | terminal (agent message status : String)
  | message (role content : String)
  | agentStatus (name status : String)
  | clearTerminal
  | webhookEmit (eventType : String)
deriving DecidableEq, Repr

/-- Result of the test collaborator `generateTestError` (spec §6: "Test
collaborator — input: {code}; output: {success: bool, optional error
message}"). -/
structure TestResult where
  isSuccess : Bool
  errorMessage : Option String

/-- A plan-modification request returned by the generation collaborator
(spec §6: `{action: "createFile", path, reason}`). -/
structure PlanModificationRequest where
  action : String
  path : String
  reason : String

/-- Result of the generation collaborator `generateCodeForFile`: code plus an
optional plan-modification request, or a thrown error. -/
inductive GenResult where
  | ok (code : String) (planModificationRequest : Option PlanModificationRequest)
  | err (msg : String)

/-- The external AI collaborators, keyed the way the orchestrator calls them:
generation by file path, testing by the code under test, debugging by the
current code and the last test error. -/
structure Collaborators where
  generateCodeForFile : String → GenResult
  generateTestError : String → TestResult
  debugCode : String → String → Option String

/-- The slice of `ProjectState` mutated by the build pipeline: the plan's
file tree, the `isBuilding` flag (`SET_BUILD_STATUS`), and the error field
(`SET_ERROR`). -/
structure OrchestratorState where
  fileStructure : Forest
  isBuilding : Bool
  error : Option String

/-- `handleDebugCode` of `useProjectOrchestrator`: looks up the file; if it
has code and a recorded test error, invokes the debug collaborator; a
produced fix is applied via `UPDATE_FILE_CODE` and `true` is returned; no fix
(or a thrown error) is caught and `false` is returned. -/
def handleDebugCode (c : Collaborators) (st : OrchestratorState)
    (filePath : String) : OrchestratorState × List Effect × Bool :=
  match findFileByPath st.fileStructure filePath with
  | none => (st, [], false)
  | some f =>
    match f.code, f.testError with
    | some code, some terr =>
      let pre := [Effect.agentStatus "Debugger" "Debugging",
                  Effect.terminal "Debugger" ("Attempting to fix bug in " ++ filePath ++ "...") "info",
                  Effect.debug filePath]
      match c.debugCode code terr with
      | some fixedCode =>
        ({ st with fileStructure := updateFileCode st.fileStructure filePath fixedCode },
         pre ++ [Effect.terminal "Debugger"
                   ("Successfully applied a fix to " ++ filePath ++ ". Re-running tests...") "success",
                 Effect.agentStatus "Debugger" "Idle"],
         true)
      | none =>
        (st,
         pre ++ [Effect.terminal "Debugger" ("Failed to fix the bug in " ++ filePath ++ ".") "error",
                 Effect.agentStatus "Debugger" "Idle"],
         false)
    | _, _ => (st, [], false)

/-- `handleRunTests` of `useProjectOrchestrator`: runs the test collaborator
on the file's code; on success records `passing` and learns from success; on
failure records `failing` with the error, hands off to `handleDebugCode`,
and — when a fix was produced — recursively re-runs itself on the same file.
The source recursion carries no iteration bound; the embedding makes the
recursion depth explicit as `fuel`, and `none` means the source call is still
recursing after `fuel` test→debug rounds. -/
def handleRunTests (c : Collaborators) :
    Nat → OrchestratorState → String → Option (OrchestratorState × List Effect × Bool)
  | 0, _, _ => none
  | fuel + 1, st, filePath =>
    match findFileByPath st.fileStructure filePath with
    | none => some (st, [], false)
    | some f =>
      match f.code with
      | none => some (st, [], false)
      | some code =>
        let pre := [Effect.agentStatus "QA Engineer" "Testing",
                    Effect.terminal "QA Engineer" ("Running tests on " ++ filePath ++ "...") "info",
                    Effect.runTest filePath]
        let r := c.generateTestError code
        if r.isSuccess then
          some ({ st with fileStructure := setTestStatusOnly st.fileStructure filePath .passing },
                pre ++ [Effect.terminal "QA Engineer" ("Tests PASSED for " ++ filePath) "success",
                        Effect.agentStatus "QA Engineer" "Idle",
                        Effect.learn filePath],
                true)
        else
          let st1 : OrchestratorState :=
            { st with fileStructure :=
                setTestStatusAndError st.fileStructure filePath .failing r.errorMessage }
          let failEffs := [Effect.terminal "QA Engineer" ("Tests FAILED for " ++ filePath) "error",
                           Effect.agentStatus "QA Engineer" "Idle",
                           Effect.message "system"
                             ("Tests failed for " ++ filePath ++ ". Handing off to Debugger agent for self-healing.")]
          let dres := handleDebugCode c st1 filePath
          if dres.2.2 then
            match handleRunTests c fuel dres.1 filePath with
            | none => none
            | some (st3, effs3, b) =>
              some (st3, pre ++ failEffs ++ dres.2.1 ++ effs3, b)
          else
            some (dres.1,
                  pre ++ failEffs ++ dres.2.1 ++
                    [Effect.message "assistant"
                       ("I tried to fix " ++ filePath ++ " but could not resolve the issue.")],
                  false)

/-- `handleGenerateCode` of `useProjectOrchestrator`: classifies the coder
role from the path, clears the error field, marks the file `generating`,
invokes the generation collaborator, applies an adaptive-planning
`createFile` request via `ADD_FILE`, then applies the code via
`UPDATE_FILE_CODE`; a thrown generation error sets the project error field
and marks the file `error`.  `isBuildingCurrent` is `isBuildingRef.current`,
read only to suppress chat narration. -/
def handleGenerateCode (c : Collaborators) (isBuildingCurrent : Bool)
    (st : OrchestratorState) (filePath : String) :
    OrchestratorState × List Effect × Bool :=
  match findFileByPath st.fileStructure filePath with
  | none => (st, [], false)
  | some f =>
    if f.kind == .directory then (st, [], false)
    else
      let coderName :=
        if strIncludes filePath "src/components"
            || strEndsWith filePath ".css" || strEndsWith filePath "tailwind.config.js"
        then "Frontend Expert" else "Backend Expert"
      let st0 : OrchestratorState := { st with error := none }
      let narration :=
        if isBuildingCurrent then []
        else [Effect.message "system"
                ("(Consulting knowledge base for patterns related to " ++ filePath ++ "...)"),
              Effect.message "assistant" ("On it! Generating code for " ++ filePath ++ "...")]
      let pre := [Effect.agentStatus coderName "Coding"] ++ narration ++
                 [Effect.terminal coderName ("Generating code for " ++ filePath ++ "...") "info"]
      let st1 : OrchestratorState :=
        { st0 with fileStructure := setFileStatus st0.fileStructure filePath .generating }
      match c.generateCodeForFile filePath with
      | .ok code planMod =>
        let adaptive :
            Forest × List Effect :=
          match planMod with
          | some pm =>
            if pm.action == "createFile" then
              (addFileByPath st1.fileStructure pm.path,
               [Effect.message "assistant"
                  ("(Adaptive Planning) I realized I need a new file: " ++ pm.reason ++
                   ". I have added " ++ pm.path ++ " to the file tree.")])
            else (st1.fileStructure, [])
          | none => (st1.fileStructure, [])
        let st2 : OrchestratorState :=
          { st1 with fileStructure := updateFileCode adaptive.1 filePath code }
        let post :=
          (if isBuildingCurrent then []
           else [Effect.message "assistant"
                   ("I have finished writing the code for " ++ filePath ++ ".")]) ++
          [Effect.agentStatus coderName "Idle"]
        (st2,
         pre ++ [Effect.generate filePath] ++ adaptive.2 ++
           [Effect.terminal coderName ("Code generation complete for " ++ filePath ++ ".") "success"] ++
           post,
         true)
      | .err msg =>
        let st2 : OrchestratorState :=
          { st1 with
              error := some ("Failed to generate code for " ++ filePath ++ "."),
              fileStructure := setFileStatus st1.fileStructure filePath .error }
        let post :=
          (if isBuildingCurrent then []
           else [Effect.message "assistant"
                   ("Sorry, I hit a snag while generating code for " ++ filePath ++ ": " ++ msg)]) ++
          [Effect.agentStatus coderName "Idle"]
        (st2,
         pre ++ [Effect.generate filePath] ++
           [Effect.terminal coderName ("Code generation failed for " ++ filePath ++ ".") "error"] ++
           post,
         false)

/-- The `for (const file of filesToBuild)` loop of `handleBuildProject`:
strictly sequential; `break`s (without touching the remaining entries) when
generation fails or when the self-healing test run returns `false`.  `none`
propagates an unbounded self-heal recursion. -/
def buildLoop (c : Collaborators) (fuel : Nat) :
    OrchestratorState → List ProjectFile → Option (OrchestratorState × List Effect)
  | st, [] => some (st, [])
  | st, f :: rest =>
    let pre := [Effect.terminal "Orchestrator"
                  ("--- Starting work on " ++ f.path ++ " ---") "info"]
    let gres := handleGenerateCode c true st f.path
    if gres.2.2 then
      match handleRunTests c fuel gres.1 f.path with
      | none => none
      | some (st2, teffs, passed) =>
        if passed then
          match buildLoop c fuel st2 rest with
          | none => none
          | some (st3, effs3) => some (st3, pre ++ gres.2.1 ++ teffs ++ effs3)
        else
          some (st2,
                pre ++ gres.2.1 ++ teffs ++
                  [Effect.message "system"
                     ("Tests failed for " ++ f.path ++ " and could not be self-healed. Halting build."),
                   Effect.terminal "Orchestrator"
                     ("Build HALTED due to unresolvable test failure in " ++ f.path ++ ".") "error"])
    else
      some (gres.1,
            pre ++ gres.2.1 ++
              [Effect.message "system" ("Build failed on " ++ f.path ++ ". Halting process."),
               Effect.terminal "Orchestrator"
                 ("Build HALTED due to error in " ++ f.path ++ ".") "error"])

/-- `handleBuildProject` of `useProjectOrchestrator` (`buildAll`): sets
`isBuildingRef.current` and `SET_BUILD_STATUS` to `true` unconditionally —
neither flag is consulted before starting — computes `filesToBuild` once
(every `file`-kind node whose status is not `generated`, in `flattenFileTree`
pre-order), runs the sequential loop over that fixed snapshot, then clears
the flags and reports completion. -/
def handleBuildProject (c : Collaborators) (fuel : Nat) (st : OrchestratorState) :
    Option (OrchestratorState × List Effect) :=
  let stStart : OrchestratorState := { st with isBuilding := true }
  let pre := [Effect.message "system" "Starting full project build...",
              Effect.clearTerminal]
  let filesToBuild := (flattenForest st.fileStructure).filter
      (fun f => f.kind == .file && f.status != .generated)
  match buildLoop c fuel stStart filesToBuild with
  | none => none
  | some (st1, effs) =>
    some ({ st1 with isBuilding := false },
          pre ++ effs ++ [Effect.message "system" "Full project build process finished."])

/-!
## The event bus (`WebhookService` of `webhookService.ts`)

`fetch`, the Web Crypto HMAC primitive and `JSON.stringify` are platform
facilities, passed in as a `Platform` record; `crypto.randomUUID()` and the
clock are passed as explicit arguments.  JavaScript `Record<string,string>`
objects are embedded as insertion-ordered association lists with
set-replaces-in-place semantics, matching object spread; `Map` gets the same
treatment.
-/

/-- `WebhookEvent` of `webhookService.ts`: id, type, timestamp, data, source
(the `type` field is named `eventType` here because `type` is a Lean
keyword; `data : any` is embedded as its serialized string). -/
structure WebhookEvent where
  id : String
  eventType : String
  timestamp : String
  data : String
  source : String
deriving DecidableEq, Repr

/-- `WebhookSubscription` of `webhookService.ts`. -/
structure WebhookSubscription where
  id : String
  url : String
  events : List String
  active : Bool
  secret : Option String
  headers : List (String × String)
deriving DecidableEq, Repr

/-- The caller-supplied argument of `subscribe`,
`Omit<WebhookSubscription, 'id'>`: every field of a subscription except the
id — including an `active` flag chosen by the caller. -/
structure SubscriptionInput where
  url : String
  events : List String
  active : Bool
  secret : Option String
  headers : List (String × String)
deriving DecidableEq, Repr

/-- JavaScript object-property assignment / later-spread-entry semantics on a
string record: an existing key is overwritten in place, a new key is
appended. -/
def recordSet (r : List (String × String)) (k v : String) :
    List (String × String) :=
  if r.any (fun kv => kv.1 == k) then
    r.map (fun kv => if kv.1 == k then (k, v) else kv)
  else r ++ [(k, v)]

/-- `{...base, ...extra}`: every entry of `extra` assigned, in order, on top
of `base` — so a key of `extra` that also occurs in `base` replaces the
`base` value. -/
def spreadMerge (base extra : List (String × String)) : List (String × String) :=
  extra.foldl (fun acc kv => recordSet acc kv.1 kv.2) base

/-- Property read on a string record. -/
def recordGet (r : List (String × String)) (k : String) : Option String :=
  (r.find? (fun kv => kv.1 == k)).map (fun kv => kv.2)

/-- `Map.set` on the subscription map. -/
def mapSet (m : List (String × WebhookSubscription)) (k : String)
    (v : WebhookSubscription) : List (String × WebhookSubscription) :=
  if m.any (fun kv => kv.1 == k) then
    m.map (fun kv => if kv.1 == k then (k, v) else kv)
  else m ++ [(k, v)]

/-- `Map.get` on the subscription map. -/
def mapGet (m : List (String × WebhookSubscription)) (k : String) :
    Option WebhookSubscription :=
  (m.find? (fun kv => kv.1 == k)).map (fun kv => kv.2)

/-- `Map.delete` on the subscription map: the map without the key, paired
with whether the key was present (the deleted/`boolean` result). -/
def mapDelete (m : List (String × WebhookSubscription)) (k : String) :
    List (String × WebhookSubscription) × Bool :=
  (m.filter (fun kv => kv.1 != k), m.any (fun kv => kv.1 == k))

/-- Outcome of one `fetch` call: a response with `ok` set, a response with a
non-success status, or a rejected promise (network/transport error). -/
inductive FetchOutcome where
  | ok
  | httpError (status : Nat) (statusText : String)
  | transportError (msg : String)
deriving DecidableEq, Repr

/-- The platform facilities `WebhookService` relies on: `fetch` (url,
headers, body), the Web Crypto HMAC-SHA-256 primitive (secret, payload →
MAC bytes, each a value of one `Uint8Array` cell), and `JSON.stringify` on
events. -/
structure Platform where
  fetch : String → List (String × String) → String → FetchOutcome
  hmacSha256 : String → String → List Nat
  stringify : WebhookEvent → String

/-- `b.toString(16)`: lowercase base-16 digits of a number. -/
def natToHex (n : Nat) : String :=
  String.mk (Nat.toDigits 16 n)

/-- `b.toString(16).padStart(2, '0')`: the two-character lowercase hex form
of one byte. -/
def hexByte (b : Nat) : String :=
  let s := natToHex b
  if s.length < 2 then "0" ++ s else s

/-- `hashArray.map(b => b.toString(16).padStart(2, '0')).join('')`. -/
def hexOfBytes (bs : List Nat) : String :=
  String.join (bs.map hexByte)

/-- `WebhookService.generateSignature`: imports the secret as an HMAC-SHA-256
key, signs the payload, hex-encodes the MAC and prefixes `sha256=`. -/
def generateSignature (hmac : String → String → List Nat)
    (payload secret : String) : String :=
  "sha256=" ++ hexOfBytes (hmac secret payload)

/-- `WebhookService.validateSignature`: recomputes the signature for the
payload and compares it with the presented one by string equality. -/
def validateSignature (hmac : String → String → List Nat)
    (payload signature secret : String) : Bool :=
  signature == generateSignature hmac payload secret

/-- The mutable state of the `WebhookService` singleton: the subscription
map, the FIFO event queue, and the drain-in-progress flag. -/
structure WebhookServiceState where
  subscriptions : List (String × WebhookSubscription)
  eventQueue : List WebhookEvent
  isProcessing : Bool
deriving Repr

/-- `WebhookService.subscribe`: generates an id (passed in, for
`crypto.randomUUID()`), builds `{id, ...subscription, active: true}` — the
trailing `active: true` overwrites whatever `active` value the caller
supplied — stores it in the map and returns the id. -/
def subscribe (st : WebhookServiceState) (input : SubscriptionInput)
    (freshId : String) : String × WebhookServiceState :=
  let fullSubscription : WebhookSubscription :=
    { id := freshId, url := input.url, events := input.events,
      active := true, secret := input.secret, headers := input.headers }
  (freshId,
   { st with subscriptions := mapSet st.subscriptions freshId fullSubscription })

/-- `WebhookService.unsubscribe`: `Map.delete`. -/
def unsubscribe (st : WebhookServiceState) (subscriptionId : String) :
    WebhookServiceState × Bool :=
  let r := mapDelete st.subscriptions subscriptionId
  ({ st with subscriptions := r.1 }, r.2)

/-- The request headers `deliverEvent` constructs: the four required entries,
then the subscription's static headers spread on top of them, then — when a
secret is configured — the signature header assigned last. -/
def eventHeaders (p : Platform) (event : WebhookEvent)
    (sub : WebhookSubscription) : List (String × String) :=
  let merged := spreadMerge
    [("Content-Type", "application/json"),
     ("X-Webhook-Event", event.eventType),
     ("X-Webhook-ID", event.id),
     ("X-Webhook-Timestamp", event.timestamp)]
    sub.headers
  match sub.secret with
  | some s =>
    recordSet merged "X-Webhook-Signature"
      (generateSignature p.hmacSha256 (p.stringify event) s)
  | none => merged

/-- Record of one delivery attempt: what was sent where, how the transport
answered, and what was logged about it. -/
structure DeliveryAttempt where
  subscriptionId : String
  url : String
  headers : List (String × String)
  body : String
  outcome : FetchOutcome
  logs : List String
deriving DecidableEq, Repr

/-- The `try` block of `WebhookService.deliverEvent`: build headers and body,
`fetch`, and log a non-success response; a rejected `fetch` is the thrown
exception (`Except.error`). -/
def deliverEventTry (p : Platform) (event : WebhookEvent)
    (sub : WebhookSubscription) : Except String DeliveryAttempt :=
  let headers := eventHeaders p event sub
  let body := p.stringify event
  match p.fetch sub.url headers body with
  | .ok => .ok ⟨sub.id, sub.url, headers, body, .ok, []⟩
  | .httpError status statusText =>
    .ok ⟨sub.id, sub.url, headers, body, .httpError status statusText,
         ["Webhook delivery failed for " ++ sub.id ++ ": " ++
            toString status ++ " " ++ statusText]⟩
  | .transportError msg => .error msg

/-- `WebhookService.deliverEvent`: the `try` block with its catch-all
handler — a thrown delivery error is only logged, never rethrown. -/
def deliverEvent (p : Platform) (event : WebhookEvent)
    (sub : WebhookSubscription) : DeliveryAttempt :=
  match deliverEventTry p event sub with
  | .ok a => a
  | .error msg =>
    ⟨sub.id, sub.url, eventHeaders p event sub, p.stringify event,
     .transportError msg,
     ["Webhook delivery error for " ++ sub.id ++ ": " ++ msg]⟩

/-- The subscriptions an event is delivered to:
`Array.from(this.subscriptions.values()).filter(sub => sub.active &&
sub.events.includes(event.type))`. -/
def matchingSubscriptions (subs : List (String × WebhookSubscription))
    (ty : String) : List WebhookSubscription :=
  (subs.map (fun kv => kv.2)).filter
    (fun s => s.active && s.events.contains ty)

/-- The `while (this.eventQueue.length > 0)` loop of
`WebhookService.processQueue`: shift the oldest event, deliver it to every
matching active subscription and `Promise.allSettled` the attempts (one
settled group per event), then continue with the rest of the queue. -/
def processQueueLoop (p : Platform)
    (subs : List (String × WebhookSubscription)) :
    List WebhookEvent → List (WebhookEvent × List DeliveryAttempt)
  | [] => []
  | e :: rest =>
    let relevantSubscriptions := matchingSubscriptions subs e.eventType
    let settled := relevantSubscriptions.map (deliverEvent p e)
    (e, settled) :: processQueueLoop p subs rest

/-- `WebhookService.processQueue`: sets `isProcessing`, drains the queue with
`processQueueLoop`, and clears `isProcessing`; returns the final state (queue
emptied by the shifts) and the per-event settled delivery groups, in
processing order. -/
def processQueue (p : Platform) (st : WebhookServiceState) :
    WebhookServiceState × List (WebhookEvent × List DeliveryAttempt) :=
  ({ st with eventQueue := [], isProcessing := false },
   processQueueLoop p st.subscriptions st.eventQueue)

/-- `WebhookService.emit`: builds the `WebhookEvent` (fresh id and timestamp
passed in), appends it to the queue, and starts a drain only when none is in
progress — `if (!this.isProcessing) this.processQueue()`. -/
def emit (p : Platform) (st : WebhookServiceState) (eventType data source : String)
    (freshId timestamp : String) :
    WebhookServiceState × List (WebhookEvent × List DeliveryAttempt) :=
  let event : WebhookEvent :=
    { id := freshId, eventType := eventType, timestamp := timestamp,
      data := data, source := source }
  let st1 : WebhookServiceState :=
    { st with eventQueue := st.eventQueue ++ [event] }
  if st.isProcessing then (st1, [])
  else processQueue p st1

/-- `WebhookService.getEventHistory`: `this.eventQueue.slice(-limit)` — the
tail of the *pending queue* of at most `limit` entries (`slice(-0)` is the
whole array, matching JavaScript). -/
def getEventHistory (st : WebhookServiceState) (limit : Nat) :
    List WebhookEvent :=
  if limit == 0 then st.eventQueue
  else st.eventQueue.drop (st.eventQueue.length - limit)

/-!
## Concrete scenarios

Inputs used to evaluate the embedded code on the situations the claims and
the specification's test scenarios describe.
-/

/-- Whether an effect is a webhook-bus emission. -/
def isWebhookEmit : Effect → Bool
  | .webhookEmit _ => true
  | _ => false

/-- The `(event id, attempted subscription ids)` shape of a drain trace —
which deliveries were attempted, stripped of transport outcomes. -/
def deliverySkeleton (trace : List (WebhookEvent × List DeliveryAttempt)) :
    List (String × List String) :=
  trace.map (fun g => (g.1.id, g.2.map (fun a => a.subscriptionId)))

/-- Collaborators of the self-healing scenario: the test collaborator always
reports failure, the debug collaborator always returns a fix. -/
def selfHealCollab : Collaborators :=
  { generateCodeForFile := fun _ => .err "unused",
    generateTestError := fun _ =>
      { isSuccess := false, errorMessage := some "assertion failed" },
    debugCode := fun _ _ => some "patched code" }

/-- Starting state of the self-healing scenario: one generated file with
code, about to be tested. -/
def selfHealStart : OrchestratorState :=
  { fileStructure :=
      .cons (.mk "src/a.ext" .file (some "original code") .generated .untested none .nil) .nil,
    isBuilding := true, error := none }

/-- The adaptive-planning scenario tree: `src/` with two planned files. -/
def adaptiveTree : Forest :=
  .cons (.mk "src" .directory none .planned .untested none
          (.cons (.mk "src/a.ext" .file none .planned .untested none .nil)
            (.cons (.mk "src/b.ext" .file none .planned .untested none .nil) .nil))) .nil

/-- Collaborators of the adaptive-planning scenario: generating `src/a.ext`
succeeds and requests creation of `src/c.ext`; generating `src/b.ext`
succeeds; all tests pass. -/
def adaptiveCollab : Collaborators :=
  { generateCodeForFile := fun p =>
      if p == "src/a.ext" then
        .ok "code-a" (some { action := "createFile", path := "src/c.ext",
                             reason := "a helper module is needed" })
      else if p == "src/b.ext" then .ok "code-b" none
      else .err "unexpected file",
    generateTestError := fun _ => { isSuccess := true, errorMessage := none },
    debugCode := fun _ _ => none }

/-- Starting state of the adaptive-planning scenario. -/
def adaptiveStart : OrchestratorState :=
  { fileStructure := adaptiveTree, isBuilding := false, error := none }

/-- Collaborators of the re-entrancy scenario: generation succeeds, tests
pass. -/
def reentrantCollab : Collaborators :=
  { generateCodeForFile := fun _ => .ok "generated code" none,
    generateTestError := fun _ => { isSuccess := true, errorMessage := none },
    debugCode := fun _ _ => none }

/-- State of the re-entrancy scenario: a build is already in progress
(`isBuilding = true`) and one planned file remains. -/
def reentrantStart : OrchestratorState :=
  { fileStructure := .cons (.mk "a.ext" .file none .planned .untested none .nil) .nil,
    isBuilding := true, error := none }

/-- The halt-on-failure scenario tree of the spec (§8): `src/a.ext` (file,
planned) under `src/`, plus a second planned file after it. -/
def failGenTree : Forest :=
  .cons (.mk "src" .directory none .planned .untested none
          (.cons (.mk "src/a.ext" .file none .planned .untested none .nil)
            (.cons (.mk "src/b.ext" .file none .planned .untested none .nil) .nil))) .nil

/-- Collaborators of the halt-on-failure scenario: generation for `src/a.ext`
throws. -/
def failGenCollab : Collaborators :=
  { generateCodeForFile := fun p =>
      if p == "src/a.ext" then .err "model refused" else .ok "code-b" none,
    generateTestError := fun _ => { isSuccess := true, errorMessage := none },
    debugCode := fun _ _ => none }

/-- Starting state of the halt-on-failure scenario. -/
def failGenStart : OrchestratorState :=
  { fileStructure := failGenTree, isBuilding := false, error := none }

/-- A concrete platform: `fetch` always answers with a success response, the
HMAC primitive returns an empty MAC, serialization returns the data field. -/
def trivialPlatform : Platform :=
  { fetch := fun _ _ _ => .ok,
    hmacSha256 := fun _ _ => [],
    stringify := fun e => e.data }

/-- A fresh webhook-service state: no subscriptions, empty queue, idle. -/
def emptyWS : WebhookServiceState :=
  { subscriptions := [], eventQueue := [], isProcessing := false }

/-- The header-replacement scenario event. -/
def spoofEvent : WebhookEvent :=
  { id := "evt-9", eventType := "test.failed", timestamp := "ts-9",
    data := "payload-9", source := "sdlc-agent" }

/-- The header-replacement scenario subscription: its static headers reuse
the reserved `X-Webhook-Event` name. -/
def spoofSubscription : WebhookSubscription :=
  { id := "sub-9", url := "https://example.test/hook", events := ["test.failed"],
    active := true, secret := none, headers := [("X-Webhook-Event", "spoofed")] }

/-- A concrete active subscription to `test.failed`. -/
def busySubscription : WebhookSubscription :=
  { id := "sub-1", url := "https://example.test/hook",
    events := ["test.failed"], active := true, secret := none, headers := [] }

/-- A concrete queued `test.failed` event. -/
def busyEvent : WebhookEvent :=
  { id := "evt-1", eventType := "test.failed", timestamp := "ts-1",
    data := "payload-1", source := "sdlc-agent" }

/-- A webhook-service state with one active matching subscription, one queued
event, and a drain already in progress. -/
def busyWS : WebhookServiceState :=
  { subscriptions := [("sub-1", busySubscription)],
    eventQueue := [busyEvent],
    isProcessing := true }

/-- A platform whose `fetch` always rejects with a transport error. -/
def failPlatform : Platform :=
  { fetch := fun _ _ _ => .transportError "connection refused",
    hmacSha256 := fun _ _ => [],
    stringify := fun e => e.data }

/-- A subscription whose static headers use none of the reserved names and
which carries a shared secret. -/
def customSubscription : WebhookSubscription :=
  { id := "sub-8", url := "https://example.test/hook", events := ["test.failed"],
    active := true, secret := some "s3cret",
    headers := [("X-Custom-Header", "yes")] }

/-- The four headers the wire contract requires on every delivery. -/
def requiredHeaderNames : List String :=
  ["Content-Type", "X-Webhook-Event", "X-Webhook-ID", "X-Webhook-Timestamp"]

/-!
## Helper lemmas
-/

/-- String disequality under `==` is symmetric. -/
theorem strBeqFalseSymm {a b : String} (h : (a == b) = false) : (b == a) = false := by
  rw [beq_eq_false_iff_ne] at h ⊢
  exact fun e => h e.symm

/-- Replacing the entries of one key leaves `find?` for a different key
unchanged. -/
theorem findMapReplace {α : Type} (kSet kGet : String) (v : α)
    (h : (kGet == kSet) = false) :
    ∀ r : List (String × α),
      (r.map (fun kv => if kv.1 == kSet then (kSet, v) else kv)).find?
          (fun kv => kv.1 == kGet) =
        r.find? (fun kv => kv.1 == kGet)
  | [] => rfl
  | kv :: rest => by
    rw [List.map_cons]
    cases hc : (kv.1 == kSet) with
    | true =>
      rw [if_pos rfl]
      have h1 : (kSet == kGet) = false := strBeqFalseSymm h
      have h2 : (kv.1 == kGet) = false := by rw [eq_of_beq hc]; exact h1
      rw [List.find?_cons_of_neg _ (by simp [h1]), List.find?_cons_of_neg _ (by simp [h2])]
      exact findMapReplace kSet kGet v h rest
    | false =>
      rw [if_neg (by simp)]
      cases hg : (kv.1 == kGet) with
      | true =>
        rw [List.find?_cons_of_pos _ (by simp [hg]), List.find?_cons_of_pos _ (by simp [hg])]
      | false =>
        rw [List.find?_cons_of_neg _ (by simp [hg]), List.find?_cons_of_neg _ (by simp [hg])]
        exact findMapReplace kSet kGet v h rest

/-- Appending an entry of one key leaves `find?` for a different key
unchanged. -/
theorem findAppendOne {α : Type} (kSet kGet : String) (v : α)
    (h : (kGet == kSet) = false) (r : List (String × α)) :
    ((r ++ [(kSet, v)]).find? (fun kv => kv.1 == kGet)) =
      r.find? (fun kv => kv.1 == kGet) := by
  rw [List.find?_append]
  have hone : ([(kSet, v)].find? (fun kv => kv.1 == kGet)) = none := by
    rw [List.find?_cons_of_neg _ (by simp [strBeqFalseSymm h])]
    rfl
  rw [hone, Option.or_none]

/-- Assigning one record key does not change the value read at a different
key. -/
theorem recordGet_recordSet_ne (r : List (String × String)) (kSet kGet v : String)
    (h : (kGet == kSet) = false) :
    recordGet (recordSet r kSet v) kGet = recordGet r kGet := by
  simp only [recordGet, recordSet]
  by_cases hany : (r.any fun kv => kv.1 == kSet) = true
  · rw [if_pos hany, findMapReplace kSet kGet v h r]
  · rw [if_neg hany, findAppendOne kSet kGet v h r]

/-- Spreading entries none of which uses a key leaves the value read at that
key unchanged. -/
theorem recordGet_spreadMerge_notin (k : String) :
    ∀ (extra base : List (String × String)),
      (∀ kv ∈ extra, (kv.1 == k) = false) →
      recordGet (spreadMerge base extra) k = recordGet base k
  | [], _, _ => rfl
  | kv :: rest, base, h => by
    have hkv : (kv.1 == k) = false := h kv (by simp)
    have hrest : ∀ kv2 ∈ rest, (kv2.1 == k) = false := fun kv2 hm => h kv2 (by simp [hm])
    show recordGet (spreadMerge (recordSet base kv.1 kv.2) rest) k = recordGet base k
    rw [recordGet_spreadMerge_notin k rest (recordSet base kv.1 kv.2) hrest,
        recordGet_recordSet_ne base kv.1 k kv.2 (strBeqFalseSymm hkv)]

/-- After an in-place replacement of a present key, `find?` for that key
yields the new entry. -/
theorem findMapReplaceSelf {α : Type} (k : String) (v : α) :
    ∀ m : List (String × α), m.any (fun kv => kv.1 == k) = true →
      (m.map (fun kv => if kv.1 == k then (k, v) else kv)).find?
          (fun kv => kv.1 == k) = some (k, v)
  | [], h => by cases h
  | kv :: rest, hany => by
    rw [List.map_cons]
    cases hc : (kv.1 == k) with
    | true => rw [if_pos rfl, List.find?_cons_of_pos _ (by simp)]
    | false =>
      rw [if_neg (by simp), List.find?_cons_of_neg _ (by simp [hc])]
      apply findMapReplaceSelf k v rest
      rw [List.any_cons, hc, Bool.false_or] at hany
      exact hany

/-- After appending an absent key, `find?` for that key yields the new
entry. -/
theorem findAppendSelf {α : Type} (k : String) (v : α) (m : List (String × α))
    (hany : m.any (fun kv => kv.1 == k) = false) :
    ((m ++ [(k, v)]).find? (fun kv => kv.1 == k)) = some (k, v) := by
  rw [List.find?_append]
  have hnone : m.find? (fun kv => kv.1 == k) = none :=
    List.find?_eq_none.mpr (by
      intro x hx hpx
      exact absurd hpx (List.any_eq_false.mp hany x hx))
  rw [hnone, Option.none_or, List.find?_cons_of_pos _ (by simp)]

/-- `Map.set` followed by `Map.get` at the same key yields the stored
value. -/
theorem mapGet_mapSet (m : List (String × WebhookSubscription)) (k : String)
    (v : WebhookSubscription) : mapGet (mapSet m k v) k = some v := by
  simp only [mapGet, mapSet]
  by_cases hany : (m.any fun kv => kv.1 == k) = true
  · rw [if_pos hany, findMapReplaceSelf k v m hany]
    rfl
  · rw [Bool.not_eq_true] at hany
    rw [if_neg (by simp [hany]), findAppendSelf k v m hany]
    rfl

/-- The drain loop visits the queue in order and settles, for each event, the
deliveries to exactly the matching subscriptions. -/
theorem processQueueLoop_eq_map (p : Platform)
    (subs : List (String × WebhookSubscription)) :
    ∀ q : List WebhookEvent,
      processQueueLoop p subs q =
        q.map (fun e =>
          (e, (matchingSubscriptions subs e.eventType).map (deliverEvent p e)))
  | [] => rfl
  | e :: rest => by
    rw [List.map_cons]
    show (e, (matchingSubscriptions subs e.eventType).map (deliverEvent p e)) ::
        processQueueLoop p subs rest = _
    rw [processQueueLoop_eq_map p subs rest]

/-- A delivery attempt is recorded against the subscription it was made
for, whatever the transport outcome. -/
theorem deliverEvent_subscriptionId (p : Platform) (event : WebhookEvent)
    (sub : WebhookSubscription) :
    (deliverEvent p event sub).subscriptionId = sub.id := by
  simp only [deliverEvent, deliverEventTry]
  cases p.fetch sub.url (eventHeaders p event sub) (p.stringify event) <;> rfl

/-- A delivery attempt carries the headers `eventHeaders` constructs,
whatever the transport outcome. -/
theorem deliverEvent_headers_eq (p : Platform) (event : WebhookEvent)
    (sub : WebhookSubscription) :
    (deliverEvent p event sub).headers = eventHeaders p event sub := by
  simp only [deliverEvent, deliverEventTry]
  cases p.fetch sub.url (eventHeaders p event sub) (p.stringify event) <;> rfl

/-- In the always-fail/always-fix scenario the state reached after one
test→debug round is a fixed point of the round, so the recursion never
returns, whatever depth it is allowed. -/
theorem selfHealFixNone : ∀ n, (handleRunTests
    { generateCodeForFile := fun _ => .err "unused",
      generateTestError := fun _ => { isSuccess := false, errorMessage := some "assertion failed" },
      debugCode := fun _ _ => some "patched code" } n
    { fileStructure := .cons (.mk "src/a.ext" .file (some "patched code") .modified .failing
        (some "assertion failed") .nil) .nil,
      isBuilding := true, error := none } "src/a.ext").isNone = true := by
  intro n
  induction n with
  | zero => rfl
  | succ n ih =>
    rw [handleRunTests]
    simp [findFileByPath, flattenForest, flattenTree,
      ProjectFile.code, ProjectFile.path, handleDebugCode, setTestStatusAndError,
      setTestStatusOnly, updateFileCode, updateForest, updateTree, ProjectFile.kind,
      ProjectFile.status, ProjectFile.testStatus, ProjectFile.testError, ProjectFile.children,
      List.find?, ih]
    rcases h : handleRunTests _ n _ "src/a.ext" with _ | ⟨st3, effs3, b⟩
    · rfl
    · rw [h] at ih; simp at ih

/-!
## Claim theorems
-/

/-- Claim C1: against the spec, the self-healing loop does not terminate
when the test collaborator always fails and the debug collaborator always
returns a fix.  The source `handleRunTests` carries no iteration bound at
all: for every recursion depth `fuel` the embedded evaluation of
`handleRunTests` on the scenario is still recursing (`isNone`), so the
source recursion never reaches a terminal result — it neither stops within
a configured maximum iteration count (none exists) nor produces a terminal
failure. -/
theorem selfheal_loop_never_terminates :
    ∀ fuel, (handleRunTests selfHealCollab fuel selfHealStart "src/a.ext").isNone = true := by
  intro fuel
  cases fuel with
  | zero => rfl
  | succ n =>
    rw [handleRunTests]
    simp [selfHealCollab, selfHealStart, findFileByPath, flattenForest, flattenTree,
      ProjectFile.code, ProjectFile.path, handleDebugCode, setTestStatusAndError,
      setTestStatusOnly, updateFileCode, updateForest, updateTree, ProjectFile.kind,
      ProjectFile.status, ProjectFile.testStatus, ProjectFile.testError, ProjectFile.children,
      List.find?]
    rw [Option.isNone_iff_eq_none.mp (selfHealFixNone n)]

/-- Claim C2: against the spec, a file inserted by the adaptive planner
during `buildAll` is not generated before the same invocation returns.
`handleBuildProject` computes `filesToBuild` once, before the loop, so the
`src/c.ext` node inserted while generating `src/a.ext` is present in the
final tree but still `planned`: no generation was ever attempted for it,
while both snapshot files were generated and the build completed. -/
theorem adaptive_insert_not_built_in_same_run :
    (handleBuildProject adaptiveCollab 5 adaptiveStart).map (fun r =>
      ((findFileByPath r.1.fileStructure "src/c.ext").map ProjectFile.status,
       r.2.contains (Effect.generate "src/c.ext"),
       r.2.contains (Effect.generate "src/a.ext"),
       r.2.contains (Effect.generate "src/b.ext")))
      = some (some .planned, false, true, true) := by
  decide

/-- Claim C3: against the spec, `handleBuildProject` is not single-flight.
Invoked on a state in which a build is already in progress
(`isBuilding = true`), it neither rejects nor no-ops: it clears the
terminal, traverses the file list and generates the file — the
build-in-progress guard is set but never consulted. -/
theorem buildProject_not_single_flight :
    reentrantStart.isBuilding = true ∧
    (handleBuildProject reentrantCollab 5 reentrantStart).map (fun r =>
      (r.2.contains (Effect.generate "a.ext"),
       r.2.contains Effect.clearTerminal,
       (findFileByPath r.1.fileStructure "a.ext").map ProjectFile.status))
      = some (true, true, some .generated) := by
  refine ⟨rfl, by decide⟩

/-- Claim C4: on the spec's halt scenario (generation for `src/a.ext`
fails), `buildAll` marks the node `error`, sets the project error field and
halts — `src/b.ext` is never attempted — but it emits no `build.failed`
lifecycle event: the effect trace records the halt terminal entry and
contains no webhook-bus emission whatsoever (the orchestrator never calls
the event bus). -/
theorem generation_failure_halts_without_event :
    (handleBuildProject failGenCollab 5 failGenStart).map (fun r =>
      ((findFileByPath r.1.fileStructure "src/a.ext").map ProjectFile.status,
       r.2.contains (Effect.generate "src/b.ext"),
       r.2.contains (Effect.terminal "Orchestrator"
         "Build HALTED due to error in src/a.ext." "error"),
       r.2.any isWebhookEmit,
       r.1.error))
      = some (some .error, false, true, false,
              some "Failed to generate code for src/a.ext.") := by
  decide

/-- Claim C5: against the spec, a dispatched event is not afterwards present
in the queryable history.  Emitting `project.created` on a fresh service
with zero subscriptions completes (the event is dispatched with an empty
delivery group), but `getEventHistory` — which reads the pending queue that
the drain has just emptied — returns `[]` instead of the dispatched
event. -/
theorem emit_dispatch_leaves_empty_history :
    (emit trivialPlatform emptyWS "project.created" "payload-1" "sdlc-agent"
        "evt-1" "ts-1").2.map (fun g => g.1.id) = ["evt-1"] ∧
    (emit trivialPlatform emptyWS "project.created" "payload-1" "sdlc-agent"
        "evt-1" "ts-1").2.map (fun g => g.2) = [[]] ∧
    getEventHistory
      (emit trivialPlatform emptyWS "project.created" "payload-1" "sdlc-agent"
        "evt-1" "ts-1").1 100 = [] := by
  refine ⟨by decide, by decide, by decide⟩

/-- Claim C6: the drain processes queued events strictly oldest-first, one
settled delivery group per event in queue order; every attempt in a group
belongs to an active subscription whose event-type set includes the event's
type (so an inactive or non-matching subscription never receives delivery);
and an `emit` issued while `isProcessing` is set only enqueues — it starts
no second drain and performs no deliveries. -/
theorem drain_fifo_filtered_single_drain :
    ∀ (p : Platform) (st : WebhookServiceState) (ty data src id ts : String),
    (processQueue p st).2 =
      st.eventQueue.map (fun e =>
        (e, (matchingSubscriptions st.subscriptions e.eventType).map (deliverEvent p e))) ∧
    (processQueue p st).2.map Prod.fst = st.eventQueue ∧
    (∀ eg ∈ (processQueue p st).2, ∀ a ∈ eg.2,
        ∃ sub, sub ∈ st.subscriptions.map Prod.snd ∧ sub.active = true ∧
          sub.events.contains eg.1.eventType = true ∧ a = deliverEvent p eg.1 sub) ∧
    (st.isProcessing = true →
      emit p st ty data src id ts =
        ({ st with eventQueue := st.eventQueue ++
            [{ id := id, eventType := ty, timestamp := ts, data := data, source := src }] },
         [])) := by
  intro p st ty data src id ts
  have h1 : (processQueue p st).2 =
      st.eventQueue.map (fun e =>
        (e, (matchingSubscriptions st.subscriptions e.eventType).map (deliverEvent p e))) :=
    processQueueLoop_eq_map p st.subscriptions st.eventQueue
  refine ⟨h1, ?_, ?_, ?_⟩
  · rw [h1, List.map_map]
    exact List.map_id st.eventQueue
  · intro eg hmem a ha
    rw [h1] at hmem
    obtain ⟨e, he, rfl⟩ := List.mem_map.mp hmem
    obtain ⟨sub, hsub, rfl⟩ := List.mem_map.mp ha
    obtain ⟨hmem2, hpred⟩ := List.mem_filter.mp hsub
    rw [Bool.and_eq_true] at hpred
    exact ⟨sub, hmem2, hpred.1, hpred.2, rfl⟩
  · intro hproc
    simp only [emit, hproc]
    rfl

/-- Witness for C6, at a state with one queued event, one matching active
subscription and a drain in progress. -/
theorem drain_fifo_filtered_single_drain_witness :
    (processQueue trivialPlatform busyWS).2 =
      busyWS.eventQueue.map (fun e =>
        (e, (matchingSubscriptions busyWS.subscriptions e.eventType).map
              (deliverEvent trivialPlatform e))) ∧
    (processQueue trivialPlatform busyWS).2.map Prod.fst = busyWS.eventQueue ∧
    (∀ eg ∈ (processQueue trivialPlatform busyWS).2, ∀ a ∈ eg.2,
        ∃ sub, sub ∈ busyWS.subscriptions.map Prod.snd ∧ sub.active = true ∧
          sub.events.contains eg.1.eventType = true ∧
          a = deliverEvent trivialPlatform eg.1 sub) ∧
    emit trivialPlatform busyWS "test.failed" "payload-2" "sdlc-agent" "evt-2" "ts-2" =
      ({ busyWS with eventQueue := busyWS.eventQueue ++
          [{ id := "evt-2", eventType := "test.failed", timestamp := "ts-2",
             data := "payload-2", source := "sdlc-agent" }] },
       []) := by
  have h := drain_fifo_filtered_single_drain trivialPlatform busyWS
    "test.failed" "payload-2" "sdlc-agent" "evt-2" "ts-2"
  exact ⟨h.1, h.2.1, h.2.2.1, h.2.2.2 rfl⟩

/-- Claim C7: delivery failures are isolated.  A rejected `fetch` is caught
and turned into a logged attempt (never rethrown to the drain or the `emit`
caller); the drain finishes with an emptied queue and a cleared flag
whatever the transport does; which deliveries are attempted — the
event/subscription skeleton of the trace — is the same for any two
transports; and each event yields exactly one attempt per matching
subscription, so nothing is retried. -/
theorem delivery_failures_isolated :
    ∀ (p q : Platform) (st : WebhookServiceState) (event : WebhookEvent)
      (sub : WebhookSubscription) (msg : String),
    (deliverEventTry p event sub = .error msg →
      deliverEvent p event sub =
        { subscriptionId := sub.id, url := sub.url,
          headers := eventHeaders p event sub, body := p.stringify event,
          outcome := .transportError msg,
          logs := ["Webhook delivery error for " ++ sub.id ++ ": " ++ msg] }) ∧
    (processQueue p st).1 = { st with eventQueue := [], isProcessing := false } ∧
    deliverySkeleton (processQueue p st).2 = deliverySkeleton (processQueue q st).2 ∧
    (processQueue p st).2.map (fun g => g.2.length) =
      st.eventQueue.map (fun e =>
        (matchingSubscriptions st.subscriptions e.eventType).length) := by
  intro p q st event sub msg
  refine ⟨?_, rfl, ?_, ?_⟩
  · intro h
    simp only [deliverEvent, h]
  · show deliverySkeleton (processQueueLoop p st.subscriptions st.eventQueue) =
        deliverySkeleton (processQueueLoop q st.subscriptions st.eventQueue)
    rw [processQueueLoop_eq_map, processQueueLoop_eq_map]
    simp [deliverySkeleton, List.map_map, Function.comp, deliverEvent_subscriptionId]
  · show (processQueueLoop p st.subscriptions st.eventQueue).map (fun g => g.2.length) = _
    rw [processQueueLoop_eq_map]
    simp [List.map_map, Function.comp]

/-- Witness for C7, with a transport that always rejects. -/
theorem delivery_failures_isolated_witness :
    deliverEvent failPlatform busyEvent busySubscription =
      { subscriptionId := busySubscription.id, url := busySubscription.url,
        headers := eventHeaders failPlatform busyEvent busySubscription,
        body := failPlatform.stringify busyEvent,
        outcome := .transportError "connection refused",
        logs := ["Webhook delivery error for " ++ busySubscription.id ++ ": " ++
                   "connection refused"] } ∧
    (processQueue failPlatform busyWS).1 =
      { busyWS with eventQueue := [], isProcessing := false } ∧
    deliverySkeleton (processQueue failPlatform busyWS).2 =
      deliverySkeleton (processQueue trivialPlatform busyWS).2 ∧
    (processQueue failPlatform busyWS).2.map (fun g => g.2.length) =
      busyWS.eventQueue.map (fun e =>
        (matchingSubscriptions busyWS.subscriptions e.eventType).length) := by
  have h := delivery_failures_isolated failPlatform trivialPlatform busyWS
    busyEvent busySubscription "connection refused"
  exact ⟨h.1 rfl, h.2.1, h.2.2.1, h.2.2.2⟩

/-- Claim C8: for every payload and secret, `generateSignature` produces the
hex encoding of the platform HMAC-SHA-256 of the payload under the secret,
prefixed `sha256=`, and `validateSignature` accepts a signature produced by
`generateSignature` for the same payload and secret; each MAC byte is
rendered as exactly two lowercase hex characters. -/
theorem signature_format_and_roundtrip :
    (∀ (hmac : String → String → List Nat) (payload secret : String),
      generateSignature hmac payload secret =
        "sha256=" ++ hexOfBytes (hmac secret payload) ∧
      validateSignature hmac payload (generateSignature hmac payload secret) secret = true) ∧
    (∀ b : Fin 256, (hexByte b.val).length = 2) := by
  refine ⟨fun hmac payload secret => ⟨rfl, by simp [validateSignature]⟩, ?_⟩
  set_option maxRecDepth 4000 in decide

/-- Counterexample to claim C9: a subscriber-supplied static header with the
reserved name `X-Webhook-Event` replaces the event-derived value — the
delivered headers carry `spoofed` instead of the event's type. -/
theorem required_headers_replaceable :
    recordGet (deliverEvent trivialPlatform spoofEvent spoofSubscription).headers
        "X-Webhook-Event" = some "spoofed" ∧
    spoofEvent.eventType = "test.failed" ∧
    recordGet (deliverEvent trivialPlatform spoofEvent spoofSubscription).headers
        "X-Webhook-Event" ≠ some spoofEvent.eventType := by
  refine ⟨by decide, by decide, by decide⟩

/-- Claim C9 as amended: the subscriber's static headers are spread after
the required headers, so a static header reusing a required name replaces
it; whenever the static headers use none of the four required names, every
required header is present with its event-derived value in every delivery
attempt. -/
theorem required_headers_intact_without_clash :
    ∀ (p : Platform) (event : WebhookEvent) (sub : WebhookSubscription),
    (∀ kv ∈ sub.headers, requiredHeaderNames.contains kv.1 = false) →
    recordGet (deliverEvent p event sub).headers "Content-Type" = some "application/json" ∧
    recordGet (deliverEvent p event sub).headers "X-Webhook-Event" = some event.eventType ∧
    recordGet (deliverEvent p event sub).headers "X-Webhook-ID" = some event.id ∧
    recordGet (deliverEvent p event sub).headers "X-Webhook-Timestamp" =
      some event.timestamp := by
  intro p event sub h
  have hsplit : ∀ kv ∈ sub.headers,
      (kv.1 == "Content-Type") = false ∧ (kv.1 == "X-Webhook-Event") = false ∧
      (kv.1 == "X-Webhook-ID") = false ∧ (kv.1 == "X-Webhook-Timestamp") = false := by
    intro kv hm
    have hc := h kv hm
    simp only [requiredHeaderNames, List.contains_cons, Bool.or_eq_false_iff] at hc
    exact ⟨hc.1, hc.2.1, hc.2.2.1, hc.2.2.2.1⟩
  rw [deliverEvent_headers_eq]
  have hmain : ∀ k : String, (k == "X-Webhook-Signature") = false →
      (∀ kv ∈ sub.headers, (kv.1 == k) = false) →
      recordGet (eventHeaders p event sub) k =
        recordGet [("Content-Type", "application/json"),
          ("X-Webhook-Event", event.eventType),
          ("X-Webhook-ID", event.id), ("X-Webhook-Timestamp", event.timestamp)] k := by
    intro k hsig hext
    simp only [eventHeaders]
    cases sub.secret with
    | none => exact recordGet_spreadMerge_notin k sub.headers _ hext
    | some s =>
      rw [recordGet_recordSet_ne _ _ _ _ hsig]
      exact recordGet_spreadMerge_notin k sub.headers _ hext
  refine ⟨?_, ?_, ?_, ?_⟩
  · rw [hmain "Content-Type" (by decide) (fun kv hm => (hsplit kv hm).1)]
    rfl
  · rw [hmain "X-Webhook-Event" (by decide) (fun kv hm => (hsplit kv hm).2.1)]
    simp [recordGet, List.find?]
  · rw [hmain "X-Webhook-ID" (by decide) (fun kv hm => (hsplit kv hm).2.2.1)]
    simp [recordGet, List.find?]
  · rw [hmain "X-Webhook-Timestamp" (by decide) (fun kv hm => (hsplit kv hm).2.2.2)]
    simp [recordGet, List.find?]

/-- Witness for the amended C9, at a subscription whose static headers use
none of the reserved names. -/
theorem required_headers_intact_without_clash_witness :
    recordGet (deliverEvent trivialPlatform spoofEvent customSubscription).headers
        "Content-Type" = some "application/json" ∧
    recordGet (deliverEvent trivialPlatform spoofEvent customSubscription).headers
        "X-Webhook-Event" = some spoofEvent.eventType ∧
    recordGet (deliverEvent trivialPlatform spoofEvent customSubscription).headers
        "X-Webhook-ID" = some spoofEvent.id ∧
    recordGet (deliverEvent trivialPlatform spoofEvent customSubscription).headers
        "X-Webhook-Timestamp" = some spoofEvent.timestamp := by
  exact required_headers_intact_without_clash trivialPlatform spoofEvent
    customSubscription (by decide)

/-- Claim C10: `subscribe` stores the caller's subscription under a fresh
id with the `active` flag forced to `true` — the trailing `active: true` of
the object literal overrides whatever the caller supplied, including an
explicit `active: false` — and the returned id maps to exactly that stored
subscription. -/
theorem subscribe_forces_active_flag :
    ∀ (st : WebhookServiceState) (input : SubscriptionInput) (freshId : String),
    (subscribe st input freshId).1 = freshId ∧
    mapGet (subscribe st input freshId).2.subscriptions freshId =
      some { id := freshId, url := input.url, events := input.events,
             active := true, secret := input.secret, headers := input.headers } := by
  intro st input freshId
  exact ⟨rfl, mapGet_mapSet _ _ _⟩

end SDLC
